import Mathlib

/-!
Shallow embedding of the check-in core of the attendance system:
the session status evaluator, the secret-answer verifier, the PIN
verifier, the attendance recorder and the session CRUD time-range
checks, translated from `src/unnamed/part_002` (checkinController),
`src/server/src/controllers/sessionController.js`,
`src/server/src/middleware/validate.js` and
`src/unnamed/part_000` (pinGenerator).

Times are integers (milliseconds since the epoch, as JS
`Date.getTime()`). bcrypt is idealized: the hash of a plaintext is a
wrapper around that plaintext and `bcryptCompare` succeeds exactly on
the hashed plaintext, so that the normalization applied on each side
is what the theorems exercise. The database is a record of lists with
auto-increment counters; `prisma.<model>.findUnique` becomes
`List.find?`. A concurrent duplicate insert between the duplicate
pre-check and `prisma.attendance.create` is modelled by an explicit
`race : Option Attendance` argument: the record another request
committed in that window (admitted by the storage uniqueness
constraint only if its pair is absent); when it collides with the
pair being created, `create` raises Prisma error P2002, which the
controller catches at part_002 lines 523-533.
-/

namespace RegSystem

/-- Milliseconds since the Unix epoch, as JS `Date.getTime()`. -/
abbrev Time := Int

/-- Idealized one-way bcrypt hash: a wrapper around the hashed plaintext. -/
structure BcryptHash where
  val : String
deriving DecidableEq

/-- Idealized `bcrypt.hash(plain, 12)`. -/
def bcryptHash (plain : String) : BcryptHash := ⟨plain⟩

/-- Idealized `bcrypt.compare(plain, hash)`: succeeds exactly on the hashed plaintext. -/
def bcryptCompare (plain : String) (h : BcryptHash) : Bool := plain == h.val

/-- Session row (prisma model `Session`; the QR-code fields are omitted:
no claim touches them). -/
structure Session where
  id : Nat
  theme : String
  startTime : Time
  endTime : Time
  secretQuestion : String
  secretAnswer : BcryptHash
  isActive : Bool
deriving DecidableEq

/-- Member row (prisma model `Member`). -/
structure Member where
  id : Nat
  name : String
  email : String
  pin : String
  pinHash : BcryptHash
  isActive : Bool
deriving DecidableEq

/-- Attendance row (prisma model `Attendance`); `checkedInAt` defaults to
the insertion instant. -/
structure Attendance where
  id : Nat
  sessionId : Nat
  memberId : Nat
  checkedInAt : Time
  ipAddress : String
  userAgent : String
deriving DecidableEq

/-- The database: session, member and attendance tables plus
auto-increment counters. -/
structure Store where
  sessions : List Session
  members : List Member
  attendance : List Attendance
  nextSessionId : Nat
  nextAttendanceId : Nat
deriving DecidableEq

/-- `prisma.session.findUnique({ where: { id } })`. -/
def findSession (db : Store) (sessionId : Nat) : Option Session :=
  db.sessions.find? (fun s => s.id == sessionId)

/-- `prisma.member.findUnique({ where: { pin } })`: plaintext PIN lookup. -/
def findMemberByPin (db : Store) (pin : String) : Option Member :=
  db.members.find? (fun m => m.pin == pin)

/-- `prisma.attendance.findUnique({ where: { sessionId_memberId } })`:
lookup by the composite unique key. -/
def findAttendance (db : Store) (sessionId memberId : Nat) : Option Attendance :=
  db.attendance.find? (fun a => a.sessionId == sessionId && a.memberId == memberId)

/-- The pre-open buffer, `bufferMinutes = 5` in every check-in path. -/
def bufferMinutes : Int := 5

/-- The buffer in milliseconds: `bufferMinutes * 60 * 1000`. -/
def bufferMs : Int := bufferMinutes * 60 * 1000

/-- JS `String.prototype.toLowerCase()`, modelled characterwise. -/
def toLowerStr (s : String) : String := ⟨s.data.map Char.toLower⟩

/-- JS `String.prototype.trim()`: drop leading and trailing whitespace. -/
def trimStr (s : String) : String :=
  ⟨((s.data.dropWhile Char.isWhitespace).reverse.dropWhile Char.isWhitespace).reverse⟩

/-- The normalization `answer.toLowerCase().trim()` applied on both the
creation side and the verification side. -/
def normalizeAnswer (s : String) : String := trimStr (toLowerStr s)

/-- Answer normalization plus hash comparison as performed at
verification time (part_002 line 348):
`bcrypt.compare(answer.toLowerCase().trim(), session.secretAnswer)`. -/
def answerMatches (answer : String) (storedHash : BcryptHash) : Bool :=
  bcryptCompare (normalizeAnswer answer) storedHash

/-- Answer normalization plus hashing as performed at creation and
update time (sessionController lines 200 and 316):
`bcrypt.hash(secretAnswer.toLowerCase().trim(), 12)`. -/
def hashSecretAnswer (secretAnswer : String) : BcryptHash :=
  bcryptHash (normalizeAnswer secretAnswer)

/-- Status helper of sessionController (lines 612-617). -/
def getSessionStatus (session : Session) (now : Time) : String :=
  if !session.isActive then "inactive"
  else if now < session.startTime then "upcoming"
  else if now > session.endTime then "completed"
  else "active"

/-- The payload of the public session-info endpoint. -/
structure SessionInfo where
  id : Nat
  theme : String
  startTime : Time
  endTime : Time
  secretQuestion : String
  status : String
  canCheckIn : Bool
  attendanceCount : Nat
deriving DecidableEq

/-- getSessionInfo, part_002 lines 546-616: resolve the session, derive
`status` from `isActive`/`startTime`/`endTime` and `canCheckIn` from the
buffered window, and return the payload (the secret question included). -/
def getSessionInfo (db : Store) (sessionId : Nat) (now : Time) : Option SessionInfo :=
  match findSession db sessionId with
  | none => none
  | some session =>
    let status : String :=
      if !session.isActive then "inactive"
      else if now < session.startTime then "upcoming"
      else if now > session.endTime then "completed"
      else "active"
    let bufferStartTime := session.startTime - bufferMs
    let canCheckIn :=
      session.isActive && decide (bufferStartTime ≤ now) && decide (now ≤ session.endTime)
    some
      { id := session.id
        theme := session.theme
        startTime := session.startTime
        endTime := session.endTime
        secretQuestion := session.secretQuestion
        status := status
        canCheckIn := canCheckIn
        attendanceCount := (db.attendance.filter (fun a => a.sessionId == sessionId)).length }

/-- Verdicts of verifySecretAnswer (part_002 lines 300-375), one per
response branch. -/
inductive VerifyResult
  | sessionNotFound
  | sessionInactive
  | outsideWindow
  | incorrectAnswer
  | correct
deriving DecidableEq

/-- verifySecretAnswer, part_002 lines 300-375: resolve the session,
reject inactive sessions, re-check the buffered window, then compare
the normalized answer against the stored hash. -/
def verifySecretAnswer (db : Store) (sessionId : Nat) (answer : String) (now : Time) :
    VerifyResult :=
  match findSession db sessionId with
  | none => .sessionNotFound
  | some session =>
    if !session.isActive then .sessionInactive
    else
      let bufferStartTime := session.startTime - bufferMs
      if now < bufferStartTime ∨ now > session.endTime then .outsideWindow
      else if !(answerMatches answer session.secretAnswer) then .incorrectAnswer
      else .correct

/-- Verdicts of submitAttendance (part_002 lines 380-541).
`duplicateCheckIn` carries the `attendance.checkedInAt` echoed in the
409 payload: the pre-check branch (lines 479-488) includes the existing
record's timestamp, the P2002 catch branch (lines 527-533) includes
none. -/
inductive SubmitResult
  | sessionNotFound
  | sessionInactive
  | outsideWindow
  | invalidPin
  | memberInactive
  | duplicateCheckIn (checkedInAt : Option Time)
  | success (attendanceId : Nat) (checkedInAt : Time) (memberId : Nat)
      (memberName : String) (sessionTheme : String)
deriving DecidableEq

/-- A record committed by a concurrent request between the duplicate
pre-check and `prisma.attendance.create`. The storage uniqueness
constraint on (sessionId, memberId) admits it only when its pair is
absent from the table. -/
def insertRace (db : Store) (race : Option Attendance) : Store :=
  match race with
  | none => db
  | some a =>
    if (findAttendance db a.sessionId a.memberId).isSome then db
    else { db with attendance := db.attendance ++ [a] }

/-- submitAttendance, part_002 lines 380-541: resolve the session,
reject inactive sessions, re-check the buffered window, look the member
up by plaintext PIN, reject inactive members, re-verify the PIN against
the member hash, pre-check for an existing (sessionId, memberId) record,
then create the record; a racing insert that lands between the pre-check
and the create makes the create raise P2002, caught at lines 523-533 and
answered as a duplicate without the original timestamp. Returns the
verdict and the resulting store. -/
def submitAttendance (db : Store) (sessionId : Nat) (pin : String) (now : Time)
    (ipAddress userAgent : String) (race : Option Attendance) : SubmitResult × Store :=
  match findSession db sessionId with
  | none => (.sessionNotFound, db)
  | some session =>
    if !session.isActive then (.sessionInactive, db)
    else
      let bufferStartTime := session.startTime - bufferMs
      if now < bufferStartTime ∨ now > session.endTime then (.outsideWindow, db)
      else
        match findMemberByPin db pin with
        | none => (.invalidPin, db)
        | some member =>
          if !member.isActive then (.memberInactive, db)
          else if !(bcryptCompare pin member.pinHash) then (.invalidPin, db)
          else
            match findAttendance db sessionId member.id with
            | some existing => (.duplicateCheckIn (some existing.checkedInAt), db)
            | none =>
              let db1 := insertRace db race
              if (findAttendance db1 sessionId member.id).isSome then
                (.duplicateCheckIn none, db1)
              else
                let record : Attendance :=
                  { id := db1.nextAttendanceId
                    sessionId := sessionId
                    memberId := member.id
                    checkedInAt := now
                    ipAddress := ipAddress
                    userAgent := userAgent }
                (.success record.id now member.id member.name session.theme,
                 { db1 with
                     attendance := db1.attendance ++ [record]
                     nextAttendanceId := db1.nextAttendanceId + 1 })

/-- The Joi schema `checkinSubmit` (validate.js lines 136-141):
`pin` must match `^\d{5}$`. -/
def pinFormatValid (pin : String) : Bool :=
  pin.data.length == 5 && pin.data.all (fun c => c.isDigit)

/-- Outcome of the POST /:sessionId/submit route (checkin.js lines
56-62): the `validate(schemas.checkinSubmit)` middleware answers 400
before the controller runs. -/
inductive RouteResult
  | validationError
  | handled (r : SubmitResult)
deriving DecidableEq

/-- The submit route pipeline, checkin.js lines 56-62: validation
middleware first, the controller only on well-formed input. -/
def checkinSubmitRoute (db : Store) (sessionId : Nat) (pin : String) (now : Time)
    (ipAddress userAgent : String) (race : Option Attendance) : RouteResult × Store :=
  if !(pinFormatValid pin) then (.validationError, db)
  else
    let out := submitAttendance db sessionId pin now ipAddress userAgent race
    (.handled out.1, out.2)

/-- Verdicts of createSession (sessionController lines 176-267)
restricted to the fields the claims touch. -/
inductive CreateSessionResult
  | invalidTimeRange
  | created (s : Session)
deriving DecidableEq

/-- createSession, sessionController lines 176-267: reject
`start >= end` and `end <= now` with a 400 before anything is stored,
hash the normalized secret answer, store the session active. The
QR-code generation that follows does not touch the fields modelled
here. -/
def createSession (db : Store) (theme : String) (startTime endTime : Time)
    (secretQuestion secretAnswer : String) (now : Time) : CreateSessionResult × Store :=
  if startTime ≥ endTime then (.invalidTimeRange, db)
  else if endTime ≤ now then (.invalidTimeRange, db)
  else
    let session : Session :=
      { id := db.nextSessionId
        theme := theme.trim
        startTime := startTime
        endTime := endTime
        secretQuestion := secretQuestion.trim
        secretAnswer := hashSecretAnswer secretAnswer
        isActive := true }
    (.created session,
     { db with
         sessions := db.sessions ++ [session]
         nextSessionId := db.nextSessionId + 1 })

/-- The optional fields of a session update request body. -/
structure SessionUpdate where
  theme : Option String
  startTime : Option Time
  endTime : Option Time
  secretQuestion : Option String
  secretAnswer : Option String
  isActive : Option Bool
deriving DecidableEq

/-- Verdicts of updateSession (sessionController lines 272-382). -/
inductive UpdateSessionResult
  | sessionNotFound
  | invalidTimeRange
  | updated (s : Session)
deriving DecidableEq

/-- updateSession, sessionController lines 272-382: resolve the
session; when either bound is supplied, combine supplied and retained
bounds and reject `newStartTime >= newEndTime` with a 400 leaving the
store untouched; otherwise apply the supplied fields (theme and
question trimmed, answer normalized and hashed). -/
def updateSession (db : Store) (id : Nat) (u : SessionUpdate) :
    UpdateSessionResult × Store :=
  match findSession db id with
  | none => (.sessionNotFound, db)
  | some existingSession =>
    let newStartTime := u.startTime.getD existingSession.startTime
    let newEndTime := u.endTime.getD existingSession.endTime
    if (u.startTime.isSome || u.endTime.isSome) && decide (newStartTime ≥ newEndTime) then
      (.invalidTimeRange, db)
    else
      let updated : Session :=
        { existingSession with
            theme := (u.theme.map String.trim).getD existingSession.theme
            isActive := u.isActive.getD existingSession.isActive
            startTime := if u.startTime.isSome then newStartTime else existingSession.startTime
            endTime := if u.endTime.isSome then newEndTime else existingSession.endTime
            secretQuestion :=
              (u.secretQuestion.map String.trim).getD existingSession.secretQuestion
            secretAnswer :=
              (u.secretAnswer.map hashSecretAnswer).getD existingSession.secretAnswer }
      (.updated updated,
       { db with sessions := db.sessions.map (fun s => if s.id == id then updated else s) })

/-- One SubmitCheckIn call: the request data together with the racing
insert, if any, that lands during it. -/
structure SubmitCall where
  sessionId : Nat
  pin : String
  now : Time
  ipAddress : String
  userAgent : String
  race : Option Attendance
deriving DecidableEq

/-- The store after a sequence of SubmitCheckIn operations. -/
def runSubmits (db : Store) (calls : List SubmitCall) : Store :=
  calls.foldl
    (fun d c => (submitAttendance d c.sessionId c.pin c.now c.ipAddress c.userAgent c.race).2) db

/-- At most one attendance record per (sessionId, memberId) pair. -/
def attendanceUnique (db : Store) : Prop :=
  ∀ sid mid : Nat,
    (db.attendance.filter (fun a => a.sessionId == sid && a.memberId == mid)).length ≤ 1

/-- Every stored session has `startTime < endTime`. -/
def sessionTimesOk (db : Store) : Prop :=
  ∀ s ∈ db.sessions, s.startTime < s.endTime

/-- An active session with the check-in window 1000000..2000000. -/
def exSession : Session :=
  { id := 1, theme := "T", startTime := 1000000, endTime := 2000000,
    secretQuestion := "Where", secretAnswer := hashSecretAnswer "brown", isActive := true }

/-- A deactivated session with the same window. -/
def exSessionOff : Session :=
  { id := 9, theme := "Off", startTime := 1000000, endTime := 2000000,
    secretQuestion := "Color", secretAnswer := hashSecretAnswer "red", isActive := false }

/-- An active member with PIN 12345. -/
def exMember : Member :=
  { id := 1, name := "Ann", email := "a@b.c", pin := "12345",
    pinHash := bcryptHash "12345", isActive := true }

/-- A deactivated member whose stored plaintext PIN is 54321. -/
def exMemberOff : Member :=
  { id := 2, name := "Bob", email := "b@b.c", pin := "54321",
    pinHash := bcryptHash "54321", isActive := false }

/-- An active member whose stored hash disagrees with the plaintext PIN. -/
def exMemberBadHash : Member :=
  { id := 3, name := "Cal", email := "c@b.c", pin := "99999",
    pinHash := bcryptHash "00000", isActive := true }

/-- An attendance record for the pair (1, 1). -/
def exAtt : Attendance :=
  { id := 7, sessionId := 1, memberId := 1, checkedInAt := 1200000,
    ipAddress := "x", userAgent := "y" }

/-- A fresh store: one session, one member, no attendance. -/
def exDb : Store :=
  { sessions := [exSession], members := [exMember], attendance := [],
    nextSessionId := 2, nextAttendanceId := 1 }

/-- A store where the pair (1, 1) has already checked in. -/
def exDbFull : Store :=
  { sessions := [exSession, exSessionOff],
    members := [exMember, exMemberOff, exMemberBadHash],
    attendance := [exAtt], nextSessionId := 10, nextAttendanceId := 8 }

/-- The record a concurrent request commits for the pair (1, 1). -/
def exRace : Attendance :=
  { id := 99, sessionId := 1, memberId := 1, checkedInAt := 1400000,
    ipAddress := "r", userAgent := "r" }


theorem unique_append_absent (db : Store) (a : Attendance)
    (h : attendanceUnique db)
    (habs : findAttendance db a.sessionId a.memberId = none) :
    attendanceUnique { db with attendance := db.attendance ++ [a] } := by
  intro sid mid
  simp only [List.filter_append, List.length_append]
  by_cases hpa : (a.sessionId == sid && a.memberId == mid) = true
  · have hsm : a.sessionId = sid ∧ a.memberId = mid := by
      simpa [Bool.and_eq_true, beq_iff_eq] using hpa
    have hnil : db.attendance.filter (fun x => x.sessionId == sid && x.memberId == mid) = [] := by
      rw [List.filter_eq_nil_iff]
      intro x hx
      have hnone := List.find?_eq_none.mp habs x hx
      rw [← hsm.1, ← hsm.2]
      exact hnone
    rw [hnil]
    simp [hpa]
  · have hone : List.filter (fun x => x.sessionId == sid && x.memberId == mid) [a] = [] := by
      simp only [List.filter, hpa]
    rw [hone]
    simpa using h sid mid

theorem insertRace_unique (db : Store) (race : Option Attendance)
    (h : attendanceUnique db) : attendanceUnique (insertRace db race) := by
  cases race with
  | none => exact h
  | some a =>
    unfold insertRace
    dsimp only
    by_cases hp : (findAttendance db a.sessionId a.memberId).isSome
    · simpa [hp] using h
    · rw [if_neg hp]
      exact unique_append_absent db a h (Option.not_isSome_iff_eq_none.mp hp)

theorem submitAttendance_unique (db : Store) (sid : Nat) (pin : String) (now : Time)
    (ip ua : String) (race : Option Attendance) (h : attendanceUnique db) :
    attendanceUnique (submitAttendance db sid pin now ip ua race).2 := by
  unfold submitAttendance
  cases hs : findSession db sid with
  | none => exact h
  | some session =>
    simp only
    split
    · exact h
    · split
      · exact h
      · cases hm : findMemberByPin db pin with
        | none => exact h
        | some member =>
          simp only
          split
          · exact h
          · split
            · exact h
            · cases ha : findAttendance db sid member.id with
              | some e => exact h
              | none =>
                simp only
                split
                · exact insertRace_unique db race h
                · rename_i hnotsome
                  exact unique_append_absent (insertRace db race) _
                    (insertRace_unique db race h)
                    (Option.not_isSome_iff_eq_none.mp hnotsome)

theorem submit_existing_pair_unchanged (db : Store) (sid : Nat) (pin : String) (now : Time)
    (ip ua : String) (race : Option Attendance) (m : Member) (a : Attendance)
    (hm : findMemberByPin db pin = some m) (ha : findAttendance db sid m.id = some a) :
    (submitAttendance db sid pin now ip ua race).2 = db := by
  unfold submitAttendance
  cases hs : findSession db sid with
  | none => rfl
  | some session =>
    simp only
    split
    · rfl
    · split
      · rfl
      · rw [hm]
        simp only
        split
        · rfl
        · split
          · rfl
          · rw [ha]

/-- C1: across every sequence of SubmitCheckIn operations, at most one
attendance record exists per (sessionId, memberId) pair, and a submit
for a pair that already has a record leaves the store unchanged. -/
theorem attendance_pair_unique_invariant :
    (∀ (db : Store) (calls : List SubmitCall), attendanceUnique db →
      attendanceUnique (runSubmits db calls))
    ∧ (∀ (db : Store) (sid : Nat) (pin : String) (now : Time) (ip ua : String)
        (race : Option Attendance) (m : Member) (a : Attendance),
        findMemberByPin db pin = some m → findAttendance db sid m.id = some a →
        (submitAttendance db sid pin now ip ua race).2 = db) := by
  constructor
  · intro db calls
    induction calls generalizing db with
    | nil => exact fun h => h
    | cons c rest ih =>
      intro h
      exact ih _ (submitAttendance_unique _ _ _ _ _ _ _ h)
  · intro db sid pin now ip ua race m a hm ha
    exact submit_existing_pair_unchanged db sid pin now ip ua race m a hm ha

/-- Witness for C1 at concrete inputs: two submits of the same PIN to
the same session, and a submit against a store that already holds the
pair. -/
theorem attendance_pair_unique_invariant_witness :
    attendanceUnique (runSubmits exDb
      [⟨1, "12345", 1500000, "i", "u", none⟩, ⟨1, "12345", 1600000, "i", "u", none⟩])
    ∧ (submitAttendance exDbFull 1 "12345" 1500000 "i" "u" none).2 = exDbFull :=
  ⟨attendance_pair_unique_invariant.1 exDb _
      (by intro sid mid; simp [exDb, attendanceUnique]),
   attendance_pair_unique_invariant.2 exDbFull 1 "12345" 1500000 "i" "u" none exMember exAtt
     (by decide) (by decide)⟩


/-- C2 counterexample: the pair (1,1) has no record at the pre-check,
a concurrent request commits one (checkedInAt 1400000) before the
create, the storage constraint fires and the caught P2002 is answered
as a duplicate with no timestamp — not the original 1400000. -/
theorem duplicate_race_timestamp_counterexample :
    (submitAttendance exDb 1 "12345" 1500000 "ip" "ua" (some exRace)).1
        = .duplicateCheckIn none
    ∧ (findAttendance (submitAttendance exDb 1 "12345" 1500000 "ip" "ua" (some exRace)).2
        1 1).map Attendance.checkedInAt = some 1400000
    ∧ SubmitResult.duplicateCheckIn none
        ≠ .duplicateCheckIn (some exRace.checkedInAt) := by decide

theorem find?_append_of_none {α : Type} (p : α → Bool) (l1 l2 : List α)
    (h : l1.find? p = none) : (l1 ++ l2).find? p = l2.find? p := by
  rw [List.find?_append, h, Option.none_or]

/-- C2 (amended): under a submit that passes the session, window and
PIN checks, a pair whose record exists at the pre-check is rejected as
a duplicate carrying the original check-in timestamp and the store is
unchanged; a racing insert for the pair caught by the storage
uniqueness constraint is rejected as a duplicate without the original
timestamp. -/
theorem duplicate_checkin_timestamp :
    ∀ (db : Store) (sid : Nat) (pin : String) (now : Time) (ip ua : String)
      (race : Option Attendance) (s : Session) (m : Member),
      findSession db sid = some s → s.isActive = true →
      s.startTime - bufferMs ≤ now → now ≤ s.endTime →
      findMemberByPin db pin = some m → m.isActive = true →
      bcryptCompare pin m.pinHash = true →
      ((∀ a, findAttendance db sid m.id = some a →
          (submitAttendance db sid pin now ip ua race).1
              = .duplicateCheckIn (some a.checkedInAt)
          ∧ (submitAttendance db sid pin now ip ua race).2 = db)
      ∧ (∀ a, findAttendance db sid m.id = none → race = some a →
          a.sessionId = sid → a.memberId = m.id →
          (submitAttendance db sid pin now ip ua race).1 = .duplicateCheckIn none)) := by
  intro db sid pin now ip ua race s m hs hA h1 h2 hm hmA hbc
  unfold submitAttendance
  rw [hs]
  dsimp only
  simp only [hA, Bool.not_true, Bool.false_eq_true, if_false]
  rw [if_neg (show ¬(now < s.startTime - bufferMs ∨ now > s.endTime) from
    not_or.mpr ⟨not_lt.mpr h1, not_lt.mpr h2⟩)]
  rw [hm]
  simp only [hmA, Bool.not_true, Bool.false_eq_true, if_false, hbc, if_false]
  constructor
  · intro a ha
    rw [ha]
    exact ⟨rfl, rfl⟩
  · intro a ha hr hsid hmid
    rw [ha]
    subst hr
    simp only
    have hins : insertRace db (some a) =
        { db with attendance := db.attendance ++ [a] } := by
      unfold insertRace
      dsimp only
      rw [if_neg]
      rw [hsid, hmid]
      simp [ha]
    rw [hins]
    have hfind : findAttendance { db with attendance := db.attendance ++ [a] } sid m.id
        = some a := by
      unfold findAttendance at ha ⊢
      dsimp only
      rw [find?_append_of_none _ _ _ ha]
      simp [List.find?, hsid, hmid]
    rw [if_pos (by rw [hfind]; rfl)]


/-- Witness for C2 at concrete inputs: a pre-checked duplicate echoes
the stored timestamp 1200000 and leaves the store unchanged; a racing
duplicate is rejected without a timestamp. -/
theorem duplicate_checkin_timestamp_witness :
    ((submitAttendance exDbFull 1 "12345" 1500000 "i" "u" none).1
        = .duplicateCheckIn (some 1200000)
      ∧ (submitAttendance exDbFull 1 "12345" 1500000 "i" "u" none).2 = exDbFull)
    ∧ (submitAttendance exDb 1 "12345" 1500000 "ip" "ua" (some exRace)).1
        = .duplicateCheckIn none :=
  ⟨(duplicate_checkin_timestamp exDbFull 1 "12345" 1500000 "i" "u" none
      exSession exMember (by decide) (by decide) (by decide) (by decide)
      (by decide) (by decide) (by decide)).1 exAtt (by decide),
   (duplicate_checkin_timestamp exDb 1 "12345" 1500000 "ip" "ua" (some exRace)
      exSession exMember (by decide) (by decide) (by decide) (by decide)
      (by decide) (by decide) (by decide)).2 exRace (by decide) rfl (by decide) (by decide)⟩

/-- C3: for every stored session and every instant, the session-info
canCheckIn flag equals isActive AND startTime - 5min <= now <= endTime,
both bounds inclusive, and is false whenever the session is inactive. -/
theorem canCheckIn_window :
    ∀ (db : Store) (sid : Nat) (now : Time) (s : Session),
      findSession db sid = some s →
      ∃ info, getSessionInfo db sid now = some info
        ∧ info.canCheckIn
            = (s.isActive && decide (s.startTime - bufferMs ≤ now)
                && decide (now ≤ s.endTime))
        ∧ (s.isActive = false → info.canCheckIn = false) := by
  intro db sid now s hs
  unfold getSessionInfo
  rw [hs]
  exact ⟨_, rfl, rfl, fun h => by simp [h]⟩

/-- Witness for C3: the boundary instant now = endTime of the active
example session is inside the window. -/
theorem canCheckIn_window_witness :
    ∃ info, getSessionInfo exDb 1 2000000 = some info
      ∧ info.canCheckIn
          = (exSession.isActive && decide (exSession.startTime - bufferMs ≤ 2000000)
              && decide ((2000000 : Time) ≤ exSession.endTime))
      ∧ (exSession.isActive = false → info.canCheckIn = false) :=
  canCheckIn_window exDb 1 2000000 exSession (by decide)

/-- C4 counterexample: at now = 900000 the example session is inside
its pre-open buffer (bufferStart = 700000, startTime = 1000000); the
reported status is upcoming, not active, while canCheckIn is true. -/
theorem session_status_buffer_counterexample :
    (getSessionInfo exDb 1 900000).map SessionInfo.status = some "upcoming"
    ∧ (getSessionInfo exDb 1 900000).map SessionInfo.canCheckIn = some true
    ∧ ("upcoming" : String) ≠ "active" := by decide

/-- C4 (amended): for an active stored session with a well-formed
window, the reported status is upcoming iff now < startTime, active iff
startTime <= now <= endTime, completed iff now > endTime — the three
states are mutually exclusive, the pre-open buffer is not reflected in
the status, and a session inside its buffer is reported upcoming even
though canCheckIn is true. -/
theorem session_status_partition :
    ∀ (db : Store) (sid : Nat) (now : Time) (s : Session) (info : SessionInfo),
      findSession db sid = some s → s.isActive = true →
      s.startTime ≤ s.endTime →
      getSessionInfo db sid now = some info →
      ((info.status = "upcoming" ↔ now < s.startTime)
      ∧ (info.status = "active" ↔ (s.startTime ≤ now ∧ now ≤ s.endTime))
      ∧ (info.status = "completed" ↔ s.endTime < now)
      ∧ (s.startTime - bufferMs ≤ now → now < s.startTime →
          info.status = "upcoming" ∧ info.canCheckIn = true)) := by
  intro db sid now s info hs hA hwf hinfo
  unfold getSessionInfo at hinfo
  rw [hs] at hinfo
  simp only [hA, Bool.not_true, Bool.false_eq_true, if_false, Option.some.injEq] at hinfo
  subst hinfo
  dsimp only
  by_cases h1 : now < s.startTime
  · have hle : now ≤ s.endTime := le_trans (le_of_lt h1) hwf
    simp only [if_pos h1]
    refine ⟨?_, ?_, ?_, ?_⟩
    · simp [h1]
    · simp [not_le.mpr h1]
    · simp [not_lt.mpr hle]
    · intro hb hlt
      refine ⟨by simp, ?_⟩
      simp only [hA, Bool.true_and, Bool.and_eq_true, decide_eq_true_eq]
      exact ⟨hb, hle⟩
  · by_cases h2 : now > s.endTime
    · simp only [if_neg h1, if_pos h2]
      refine ⟨?_, ?_, ?_, ?_⟩
      · simp [h1]
      · simp [not_le.mpr h2]
      · simp [h2]
      · intro hb hlt
        exact absurd hlt h1
    · simp only [if_neg h1, if_neg h2]
      refine ⟨?_, ?_, ?_, ?_⟩
      · simp [h1]
      · simp [not_lt.mp h1, not_lt.mp h2]
      · simp [h2]
      · intro hb hlt
        exact absurd hlt h1

/-- Witness for C4 at a concrete instant inside the pre-open buffer:
the status is upcoming and canCheckIn is true. -/
theorem session_status_partition_witness :
    ∃ info, getSessionInfo exDb 1 900000 = some info
      ∧ info.status = "upcoming" ∧ info.canCheckIn = true := by
  refine ⟨_, rfl, ?_⟩
  exact (session_status_partition exDb 1 900000 exSession _
      (by decide) (by decide) (by decide) rfl).2.2.2 (by decide) (by decide)


/-- C5: submitAttendance reports the first applicable failure in the
fixed order SessionNotFound, SessionInactive, OutsideWindow, InvalidPin
(no member with the submitted plaintext PIN), MemberInactive, InvalidPin
(hash re-verification mismatch), DuplicateCheckIn; in particular a
deactivated member with a matching plaintext PIN is rejected as
MemberInactive and an active member failing only the hash
re-verification as InvalidPin. -/
theorem submit_verdict_order :
    ∀ (db : Store) (sid : Nat) (pin : String) (now : Time) (ip ua : String)
      (race : Option Attendance),
      (findSession db sid = none →
        (submitAttendance db sid pin now ip ua race).1 = .sessionNotFound)
      ∧ (∀ s, findSession db sid = some s → s.isActive = false →
          (submitAttendance db sid pin now ip ua race).1 = .sessionInactive)
      ∧ (∀ s, findSession db sid = some s → s.isActive = true →
          (now < s.startTime - bufferMs ∨ now > s.endTime) →
          (submitAttendance db sid pin now ip ua race).1 = .outsideWindow)
      ∧ (∀ s, findSession db sid = some s → s.isActive = true →
          s.startTime - bufferMs ≤ now → now ≤ s.endTime →
          findMemberByPin db pin = none →
          (submitAttendance db sid pin now ip ua race).1 = .invalidPin)
      ∧ (∀ s m, findSession db sid = some s → s.isActive = true →
          s.startTime - bufferMs ≤ now → now ≤ s.endTime →
          findMemberByPin db pin = some m → m.isActive = false →
          (submitAttendance db sid pin now ip ua race).1 = .memberInactive)
      ∧ (∀ s m, findSession db sid = some s → s.isActive = true →
          s.startTime - bufferMs ≤ now → now ≤ s.endTime →
          findMemberByPin db pin = some m → m.isActive = true →
          bcryptCompare pin m.pinHash = false →
          (submitAttendance db sid pin now ip ua race).1 = .invalidPin)
      ∧ (∀ s m a, findSession db sid = some s → s.isActive = true →
          s.startTime - bufferMs ≤ now → now ≤ s.endTime →
          findMemberByPin db pin = some m → m.isActive = true →
          bcryptCompare pin m.pinHash = true →
          findAttendance db sid m.id = some a →
          (submitAttendance db sid pin now ip ua race).1
            = .duplicateCheckIn (some a.checkedInAt)) := by
  intro db sid pin now ip ua race
  refine ⟨?_, ?_, ?_, ?_, ?_, ?_, ?_⟩
  · intro h
    unfold submitAttendance
    rw [h]
  · intro s hs hA
    unfold submitAttendance
    rw [hs]
    simp [hA]
  · intro s hs hA hw
    unfold submitAttendance
    rw [hs]
    dsimp only
    simp only [hA, Bool.not_true, Bool.false_eq_true, if_false]
    rw [if_pos hw]
  · intro s hs hA h1 h2 hm
    unfold submitAttendance
    rw [hs]
    dsimp only
    simp only [hA, Bool.not_true, Bool.false_eq_true, if_false]
    rw [if_neg (show ¬(now < s.startTime - bufferMs ∨ now > s.endTime) from
      not_or.mpr ⟨not_lt.mpr h1, not_lt.mpr h2⟩)]
    rw [hm]
  · intro s m hs hA h1 h2 hm hmA
    unfold submitAttendance
    rw [hs]
    dsimp only
    simp only [hA, Bool.not_true, Bool.false_eq_true, if_false]
    rw [if_neg (show ¬(now < s.startTime - bufferMs ∨ now > s.endTime) from
      not_or.mpr ⟨not_lt.mpr h1, not_lt.mpr h2⟩)]
    rw [hm]
    simp [hmA]
  · intro s m hs hA h1 h2 hm hmA hbc
    unfold submitAttendance
    rw [hs]
    dsimp only
    simp only [hA, Bool.not_true, Bool.false_eq_true, if_false]
    rw [if_neg (show ¬(now < s.startTime - bufferMs ∨ now > s.endTime) from
      not_or.mpr ⟨not_lt.mpr h1, not_lt.mpr h2⟩)]
    rw [hm]
    simp [hmA, hbc]
  · intro s m a hs hA h1 h2 hm hmA hbc ha
    unfold submitAttendance
    rw [hs]
    dsimp only
    simp only [hA, Bool.not_true, Bool.false_eq_true, if_false]
    rw [if_neg (show ¬(now < s.startTime - bufferMs ∨ now > s.endTime) from
      not_or.mpr ⟨not_lt.mpr h1, not_lt.mpr h2⟩)]
    rw [hm]
    simp only [hmA, Bool.not_true, Bool.false_eq_true, if_false, hbc, Bool.not_false]
    rw [ha]

/-- Witness for C5: a deactivated member with matching plaintext PIN is
rejected as MemberInactive; an active member whose stored hash
disagrees with the plaintext PIN is rejected as InvalidPin. -/
theorem submit_verdict_order_witness :
    (submitAttendance exDbFull 1 "54321" 1500000 "i" "u" none).1 = .memberInactive
    ∧ (submitAttendance exDbFull 1 "99999" 1500000 "i" "u" none).1 = .invalidPin :=
  ⟨(submit_verdict_order exDbFull 1 "54321" 1500000 "i" "u" none).2.2.2.2.1
      exSession exMemberOff (by decide) (by decide) (by decide) (by decide)
      (by decide) (by decide),
   (submit_verdict_order exDbFull 1 "99999" 1500000 "i" "u" none).2.2.2.2.2.1
      exSession exMemberBadHash (by decide) (by decide) (by decide) (by decide)
      (by decide) (by decide) (by decide)⟩

/-- C6: the stored hash is taken of the lower-cased, trimmed answer and
the submitted answer is lower-cased and trimmed before comparison, so
verification succeeds iff the two normalizations agree. -/
theorem answer_normalization :
    ∀ (ans sub : String),
      answerMatches sub (hashSecretAnswer ans) = true
        ↔ normalizeAnswer sub = normalizeAnswer ans := by
  intro ans sub
  simp [answerMatches, hashSecretAnswer, bcryptCompare, bcryptHash]

/-- Witness for C6: Brown, space-padded brown and BROWN all match a
stored answer of brown. -/
theorem answer_normalization_witness :
    answerMatches "Brown" (hashSecretAnswer "brown") = true
    ∧ answerMatches " brown " (hashSecretAnswer "brown") = true
    ∧ answerMatches "BROWN" (hashSecretAnswer "brown") = true :=
  ⟨(answer_normalization "brown" "Brown").mpr (by decide),
   (answer_normalization "brown" " brown ").mpr (by decide),
   (answer_normalization "brown" "BROWN").mpr (by decide)⟩

/-- C7: a VerifyAnswer call on an existing active session outside the
buffered window yields OutsideWindow, for every submitted answer. -/
theorem verify_answer_outside_window :
    ∀ (db : Store) (sid : Nat) (ans : String) (now : Time) (s : Session),
      findSession db sid = some s → s.isActive = true →
      (now < s.startTime - bufferMs ∨ now > s.endTime) →
      verifySecretAnswer db sid ans now = .outsideWindow := by
  intro db sid ans now s hs hA hw
  unfold verifySecretAnswer
  rw [hs]
  dsimp only
  simp only [hA, Bool.not_true, Bool.false_eq_true, if_false]
  rw [if_pos hw]

/-- Witness for C7: after endTime even the correct answer is rejected
as OutsideWindow. -/
theorem verify_answer_outside_window_witness :
    verifySecretAnswer exDb 1 "brown" 2500000 = .outsideWindow :=
  verify_answer_outside_window exDb 1 "brown" 2500000 exSession
    (by decide) (by decide) (Or.inr (by decide))

/-- C8: a submit whose PIN is not exactly 5 decimal digits is answered
with a validation error by the middleware, for every store, and the
store is returned unchanged — the controller and its directory lookups
never run. -/
theorem malformed_pin_validation :
    ∀ (db : Store) (sid : Nat) (pin : String) (now : Time) (ip ua : String)
      (race : Option Attendance),
      pinFormatValid pin = false →
      checkinSubmitRoute db sid pin now ip ua race = (.validationError, db) := by
  intro db sid pin now ip ua race h
  unfold checkinSubmitRoute
  simp [h]

/-- Witness for C8: a 4-digit PIN and a PIN with a letter are both
rejected by validation. -/
theorem malformed_pin_validation_witness :
    checkinSubmitRoute exDb 1 "1234" 1500000 "i" "u" none = (.validationError, exDb)
    ∧ checkinSubmitRoute exDb 1 "12a45" 1500000 "i" "u" none = (.validationError, exDb) :=
  ⟨malformed_pin_validation exDb 1 "1234" 1500000 "i" "u" none (by decide),
   malformed_pin_validation exDb 1 "12a45" 1500000 "i" "u" none (by decide)⟩

/-- C9: session creation rejects start >= end leaving the store
unchanged and only stores sessions with start < end; a session update
supplying either bound is rejected when the combined new bounds violate
start < end, leaving the store unchanged, and every update preserves
the invariant. -/
theorem session_time_range_invariant :
    (∀ (db : Store) (theme : String) (st et : Time) (q ans : String) (now : Time),
        st ≥ et → createSession db theme st et q ans now = (.invalidTimeRange, db))
    ∧ (∀ (db : Store) (theme : String) (st et : Time) (q ans : String) (now : Time),
        sessionTimesOk db → sessionTimesOk (createSession db theme st et q ans now).2)
    ∧ (∀ (db : Store) (id : Nat) (u : SessionUpdate) (s : Session),
        findSession db id = some s →
        (u.startTime.isSome || u.endTime.isSome) = true →
        u.startTime.getD s.startTime ≥ u.endTime.getD s.endTime →
        updateSession db id u = (.invalidTimeRange, db))
    ∧ (∀ (db : Store) (id : Nat) (u : SessionUpdate),
        sessionTimesOk db → sessionTimesOk (updateSession db id u).2) := by
  refine ⟨?_, ?_, ?_, ?_⟩
  · intro db theme st et q ans now h
    unfold createSession
    rw [if_pos h]
  · intro db theme st et q ans now hok
    unfold createSession
    by_cases hge : st ≥ et
    · rw [if_pos hge]
      exact hok
    · rw [if_neg hge]
      by_cases hle : et ≤ now
      · rw [if_pos hle]
        exact hok
      · rw [if_neg hle]
        intro x hx
        rcases List.mem_append.mp hx with h | h
        · exact hok x h
        · rw [List.mem_singleton] at h
          subst h
          exact lt_of_not_ge hge
  · intro db id u s hs htc hge
    unfold updateSession
    rw [hs]
    dsimp only
    rw [if_pos (show ((u.startTime.isSome || u.endTime.isSome)
        && decide (u.startTime.getD s.startTime ≥ u.endTime.getD s.endTime)) = true by
      rw [htc, decide_eq_true hge]
      rfl)]
  · intro db id u hok
    unfold updateSession
    cases hs : findSession db id with
    | none => exact hok
    | some ex =>
      have hexmem : ex ∈ db.sessions := by
        unfold findSession at hs
        exact List.mem_of_find?_eq_some hs
      dsimp only
      split
      · exact hok
      · rename_i hguard
        intro x hx
        rw [List.mem_map] at hx
        obtain ⟨y, hy, hxy⟩ := hx
        subst hxy
        by_cases hid : (y.id == id) = true
        · rw [if_pos hid]
          rcases hu1 : u.startTime with _ | t1 <;> rcases hu2 : u.endTime with _ | t2
          · simpa using hok ex hexmem
          · rw [hu1, hu2] at hguard
            simp only [Option.isSome_none, Option.isSome_some, Bool.false_or,
              Bool.true_and, Option.getD_none, Option.getD_some,
              decide_eq_true_eq] at hguard
            simp only [Option.isSome_none, Option.isSome_some, Option.getD_none,
              Option.getD_some, if_true, if_false, Bool.false_eq_true]
            exact lt_of_not_ge hguard
          · rw [hu1, hu2] at hguard
            simp only [Option.isSome_none, Option.isSome_some, Bool.or_false,
              Bool.true_and, Option.getD_none, Option.getD_some,
              decide_eq_true_eq] at hguard
            simp only [Option.isSome_none, Option.isSome_some, Option.getD_none,
              Option.getD_some, if_true, if_false, Bool.false_eq_true]
            exact lt_of_not_ge hguard
          · rw [hu1, hu2] at hguard
            simp only [Option.isSome_some, Bool.true_or, Bool.true_and,
              Option.getD_some, decide_eq_true_eq] at hguard
            simp only [Option.isSome_some, Option.getD_some, if_true]
            exact lt_of_not_ge hguard
        · rw [if_neg hid]
          exact hok y hy

/-- Witness for C9: a creation with start = end is rejected; an update
moving endTime before startTime is rejected; both preservation parts at
the example store. -/
theorem session_time_range_invariant_witness :
    createSession exDb "X" 5000 5000 "q" "a" 0 = (.invalidTimeRange, exDb)
    ∧ sessionTimesOk (createSession exDb "X" 5000 9000 "q" "a" 0).2
    ∧ updateSession exDb 1 ⟨none, none, some 500000, none, none, none⟩
        = (.invalidTimeRange, exDb)
    ∧ sessionTimesOk (updateSession exDb 1 ⟨none, none, some 1800000, none, none, none⟩).2 :=
  ⟨session_time_range_invariant.1 exDb "X" 5000 5000 "q" "a" 0 (by decide),
   session_time_range_invariant.2.1 exDb "X" 5000 9000 "q" "a" 0
     (by intro x hx; fin_cases hx; decide),
   session_time_range_invariant.2.2.1 exDb 1 ⟨none, none, some 500000, none, none, none⟩
     exSession (by decide) (by decide) (by decide),
   session_time_range_invariant.2.2.2 exDb 1 ⟨none, none, some 1800000, none, none, none⟩
     (by intro x hx; fin_cases hx; decide)⟩

/-- C10: the public session-info payload contains the session secret
question for every stored session at every instant, whatever the active
flag and window position. -/
theorem session_info_question :
    ∀ (db : Store) (sid : Nat) (now : Time) (s : Session),
      findSession db sid = some s →
      ∃ info, getSessionInfo db sid now = some info
        ∧ info.secretQuestion = s.secretQuestion := by
  intro db sid now s hs
  unfold getSessionInfo
  rw [hs]
  exact ⟨_, rfl, rfl⟩

/-- Witness for C10: the question of a deactivated session is still
returned after its endTime. -/
theorem session_info_question_witness :
    ∃ info, getSessionInfo exDbFull 9 2500000 = some info
      ∧ info.secretQuestion = exSessionOff.secretQuestion :=
  session_info_question exDbFull 9 2500000 exSessionOff (by decide)

end RegSystem
